import Mathlib

/-!
Verification of the MaterialSlider widget (src/src/slider/slider.js).

Shallow embedding choices:
* JavaScript numbers are modelled by `JsNum`: exact rationals extended with
  NaN and the two signed infinities.  The component only ever produces a
  non-finite value through the division in `updateValueStyles_` (when
  `max - min` is zero), which `jsDiv` models following IEEE-754 / JS
  semantics (`0/0 = NaN`, `x/0 = ±Infinity` for `x ≠ 0`).  Finite
  arithmetic is modelled exactly over `ℚ`.
* The control (`<input>` element) is a record of its numeric `value`,
  `min`, `max`, its `disabled` flag and its class list; `classList.add`
  and `classList.remove` are `classAdd` / `classRemove` on `List String`.
* The two fill-region `<div>`s behind the slider are `DivNode`s carrying a
  class list and their `flex` / `webkitFlex` style properties (`none` =
  style not set).
* `SliderState` is the state of an upgraded widget: the control, the IE
  mode flag captured at construction, and the two background nodes
  (`none` in IE mode, where the source never creates nor touches them;
  `Option.map` is only ever applied to `some` nodes on states reachable
  from `init`).
* `Widget` models the widget object before and after initialisation: an optional
  control reference, plus bookkeeping of the decoration nodes created,
  the event listeners registered and the signals raised, so that the
  no-op behaviour of `init` on an absent control is observable.
All definitions are transcribed from the source file; line references are
given on each definition.
-/

/-- JS number values reachable in this component: finite values are exact
rationals, NaN and the signed infinities arise from division by zero. -/
inductive JsNum where
  | nan : JsNum
  | inf : JsNum
  | ninf : JsNum
  | fin : ℚ → JsNum
deriving DecidableEq

/-- JS subtraction on `JsNum` (used for `1 - fraction`, slider.js:113). -/
def jsSub : JsNum → JsNum → JsNum
  | JsNum.nan, _ => JsNum.nan
  | _, JsNum.nan => JsNum.nan
  | JsNum.inf, JsNum.inf => JsNum.nan
  | JsNum.inf, _ => JsNum.inf
  | JsNum.ninf, JsNum.ninf => JsNum.nan
  | JsNum.ninf, _ => JsNum.ninf
  | JsNum.fin _, JsNum.inf => JsNum.ninf
  | JsNum.fin _, JsNum.ninf => JsNum.inf
  | JsNum.fin a, JsNum.fin b => JsNum.fin (a - b)

/-- JS division on `JsNum` (slider.js:101-102).  A zero denominator gives
NaN for a zero numerator and a signed infinity otherwise, as in IEEE-754
with a positive zero (`max - min` is an exact `+0` when `max = min`). -/
def jsDiv : JsNum → JsNum → JsNum
  | JsNum.nan, _ => JsNum.nan
  | _, JsNum.nan => JsNum.nan
  | JsNum.inf, JsNum.inf => JsNum.nan
  | JsNum.inf, JsNum.ninf => JsNum.nan
  | JsNum.ninf, JsNum.inf => JsNum.nan
  | JsNum.ninf, JsNum.ninf => JsNum.nan
  | JsNum.inf, JsNum.fin b => if b < 0 then JsNum.ninf else JsNum.inf
  | JsNum.ninf, JsNum.fin b => if b < 0 then JsNum.inf else JsNum.ninf
  | JsNum.fin _, JsNum.inf => JsNum.fin 0
  | JsNum.fin _, JsNum.ninf => JsNum.fin 0
  | JsNum.fin a, JsNum.fin b =>
      if b = 0 then
        if a = 0 then JsNum.nan
        else if 0 < a then JsNum.inf else JsNum.ninf
      else JsNum.fin (a / b)

/-- JS strict equality `===` on numbers: NaN compares unequal to
everything, including itself (slider.js:104 `fraction === 0`). -/
def jsEq : JsNum → JsNum → Bool
  | JsNum.nan, _ => false
  | _, JsNum.nan => false
  | JsNum.inf, JsNum.inf => true
  | JsNum.ninf, JsNum.ninf => true
  | JsNum.fin a, JsNum.fin b => decide (a = b)
  | _, _ => false

/-- `DOMTokenList.add`: appends the token unless already present. -/
def classAdd (l : List String) (c : String) : List String :=
  if c ∈ l then l else l ++ [c]

/-- `DOMTokenList.remove`: removes every occurrence of the token. -/
def classRemove (l : List String) (c : String) : List String :=
  l.filter (fun x => x != c)

/-- Class-name constant (slider.js:55). -/
def CssClasses.IS_LOWEST_VALUE : String := "is-lowest-value"

/-- Class-name constant (slider.js:56). -/
def CssClasses.IS_UPGRADED : String := "is-upgraded"

/-- Class-name constant (slider.js:50). -/
def CssClasses.IE_CONTAINER : String := "mdl-slider__ie-container"

/-- Class-name constant (slider.js:51). -/
def CssClasses.SLIDER_CONTAINER : String := "mdl-slider__container"

/-- Class-name constant (slider.js:52). -/
def CssClasses.BACKGROUND_FLEX : String := "mdl-slider__background-flex"

/-- Class-name constant (slider.js:53). -/
def CssClasses.BACKGROUND_LOWER : String := "mdl-slider__background-lower"

/-- Class-name constant (slider.js:54). -/
def CssClasses.BACKGROUND_UPPER : String := "mdl-slider__background-upper"

/-- The native range control: numeric `value`, `min`, `max` attributes,
the `disabled` flag and the element's class list. -/
structure Control where
  value : ℚ
  min : ℚ
  max : ℚ
  disabled : Bool
  classList : List String
deriving DecidableEq

/-- A decoration `<div>`: its class list and its `flex` / `webkitFlex`
style properties (`none` when the style has not been set). -/
structure DivNode where
  classList : List String
  flex : Option JsNum
  webkitFlex : Option JsNum
deriving DecidableEq

/-- State of an upgraded slider widget: the control (`element_`), the IE
mode flag (`isIE_`, fixed at construction) and the two background fill
nodes (`backgroundLower_` / `backgroundUpper_`; `none` in IE mode where
the source never creates them). -/
structure SliderState where
  element : Control
  isIE : Bool
  backgroundLower : Option DivNode
  backgroundUpper : Option DivNode
deriving DecidableEq

/-- A DOM event as far as this component observes it: whether its target
currently holds focus (only `onMouseUp_` looks at the event at all). -/
structure Event where
  targetFocused : Bool
deriving DecidableEq

/-- The fraction computed at slider.js:101-102:
`(value - min) / (max - min)`, with JS division semantics. -/
def fractionOf (el : Control) : JsNum :=
  jsDiv (JsNum.fin (el.value - el.min)) (JsNum.fin (el.max - el.min))

/-- `MaterialSlider.prototype.updateValueStyles_` (slider.js:97-116):
computes the fraction, toggles the `is-lowest-value` class on the control
by `fraction === 0`, and — only when not in IE mode — writes `flex` and
`webkitFlex` of the lower node to the fraction and of the upper node to
`1 - fraction`. -/
def SliderState.updateValueStyles (s : SliderState) : SliderState :=
  let fraction := fractionOf s.element
  let el :=
    if jsEq fraction (JsNum.fin 0) then
      { s.element with classList := classAdd s.element.classList CssClasses.IS_LOWEST_VALUE }
    else
      { s.element with classList := classRemove s.element.classList CssClasses.IS_LOWEST_VALUE }
  if !s.isIE then
    { s with
        element := el,
        backgroundLower := Option.map
          (fun d => { d with flex := some fraction, webkitFlex := some fraction })
          s.backgroundLower,
        backgroundUpper := Option.map
          (fun d => { d with
              flex := some (jsSub (JsNum.fin 1) fraction),
              webkitFlex := some (jsSub (JsNum.fin 1) fraction) })
          s.backgroundUpper }
  else
    { s with element := el }

/-- `MaterialSlider.prototype.disable` (slider.js:124-128):
`this.element_.disabled = true`. -/
def SliderState.disable (s : SliderState) : SliderState :=
  { s with element := { s.element with disabled := true } }

/-- `MaterialSlider.prototype.enable` (slider.js:134-138):
`this.element_.disabled = false`. -/
def SliderState.enable (s : SliderState) : SliderState :=
  { s with element := { s.element with disabled := false } }

/-- `MaterialSlider.prototype.change` (slider.js:145-152), the public
`setValue`.  The argument is `none` when omitted (JS `undefined`).  The
guard is the JS truthiness test `if (value)`: `undefined` and the number
`0` are falsy, every other (finite) number is truthy. -/
def SliderState.change (s : SliderState) (value : Option ℚ) : SliderState :=
  let s1 :=
    match value with
    | none => s
    | some v =>
        if v ≠ 0 then { s with element := { s.element with value := v } } else s
  s1.updateValueStyles

/-- `MaterialSlider.prototype.onInput_` (slider.js:64-68): ignores the
event and calls `updateValueStyles_`. -/
def SliderState.onInput (s : SliderState) (_e : Event) : SliderState :=
  s.updateValueStyles

/-- `MaterialSlider.prototype.onChange_` (slider.js:75-79): ignores the
event and calls `updateValueStyles_`. -/
def SliderState.onChange (s : SliderState) (_e : Event) : SliderState :=
  s.updateValueStyles

/-- `MaterialSlider.prototype.onMouseUp_` (slider.js:86-90):
`event.target.blur()` — removes focus from the event target; the widget
state is untouched. -/
def SliderState.onMouseUp (s : SliderState) (e : Event) : SliderState × Event :=
  (s, { e with targetFocused := false })

/-- Widget object around initialisation: the (possibly absent) control
reference, the IE flag, the background nodes (absent before `init` and in
IE mode), and observable bookkeeping: the class lists of decoration nodes
created (in creation order), the event names listened to, and any signals
raised (the source raises none). -/
structure Widget where
  element : Option Control
  isIE : Bool
  backgroundLower : Option DivNode
  backgroundUpper : Option DivNode
  createdNodes : List (List String)
  listeners : List String
  signals : List String
deriving DecidableEq

/-- `MaterialSlider.prototype.init` (slider.js:157-197).  When the control
reference is absent the whole body is skipped.  Otherwise: in IE mode one
container node is created; in non-IE mode a container, a background-flex
node and the two fill nodes are created; then the three listeners are
registered, `updateValueStyles_` runs, and the `is-upgraded` class is
added to the control.  (Re-parenting of the control inside the created
nodes is a document-tree effect outside this state model.) -/
def Widget.init (w : Widget) : Widget :=
  match w.element with
  | none => w
  | some el =>
      let wd :=
        if w.isIE then
          { w with
              createdNodes := w.createdNodes ++ [[CssClasses.IE_CONTAINER]],
              backgroundLower := w.backgroundLower,
              backgroundUpper := w.backgroundUpper }
        else
          let lower : DivNode :=
            { classList := [CssClasses.BACKGROUND_LOWER], flex := none, webkitFlex := none }
          let upper : DivNode :=
            { classList := [CssClasses.BACKGROUND_UPPER], flex := none, webkitFlex := none }
          { w with
              createdNodes := w.createdNodes ++
                [[CssClasses.SLIDER_CONTAINER], [CssClasses.BACKGROUND_FLEX],
                 lower.classList, upper.classList],
              backgroundLower := some lower,
              backgroundUpper := some upper }
      let wl := { wd with listeners := wd.listeners ++ ["input", "change", "mouseup"] }
      let s : SliderState :=
        { element := el, isIE := wl.isIE,
          backgroundLower := wl.backgroundLower, backgroundUpper := wl.backgroundUpper }
      let s1 := s.updateValueStyles
      { wl with
          element := some { s1.element with
            classList := classAdd s1.element.classList CssClasses.IS_UPGRADED },
          backgroundLower := s1.backgroundLower,
          backgroundUpper := s1.backgroundUpper }

/-- The `MaterialSlider` constructor (slider.js:24-32): stores the element
and the IE flag, then calls `init`. -/
def MaterialSlider (element : Option Control) (isIE : Bool) : Widget :=
  Widget.init
    { element := element, isIE := isIE, backgroundLower := none, backgroundUpper := none,
      createdNodes := [], listeners := [], signals := [] }

/-- A background node with no styles set, as freshly created by `init`. -/
def sampleNode : DivNode := { classList := [], flex := none, webkitFlex := none }

/-- A concrete control for witnesses. -/
def sampleControl (v mn mx : ℚ) : Control :=
  { value := v, min := mn, max := mx, disabled := false, classList := [] }

/-- A concrete non-IE slider state for witnesses. -/
def sampleState (v mn mx : ℚ) : SliderState :=
  { element := sampleControl v mn mx, isIE := false,
    backgroundLower := some sampleNode, backgroundUpper := some sampleNode }

/-- A widget with an absent control reference. -/
def emptyWidget : Widget :=
  { element := none, isIE := false, backgroundLower := none, backgroundUpper := none,
    createdNodes := [], listeners := [], signals := [] }

/-! ### Helper lemmas -/

/-- Adding a class makes it a member. -/
theorem classAdd_self_mem (l : List String) (c : String) : c ∈ classAdd l c := by
  unfold classAdd
  split
  · assumption
  · simp

/-- Adding a class does not change membership of other classes. -/
theorem classAdd_mem_of_ne (l : List String) (c d : String) (h : d ≠ c) :
    d ∈ classAdd l c ↔ d ∈ l := by
  unfold classAdd
  split
  · exact Iff.rfl
  · simp [h]

/-- Removing a class removes every occurrence. -/
theorem classRemove_self_not_mem (l : List String) (c : String) : c ∉ classRemove l c := by
  simp [classRemove]

/-- Removing a class does not change membership of other classes. -/
theorem classRemove_mem_of_ne (l : List String) (c d : String) (h : d ≠ c) :
    d ∈ classRemove l c ↔ d ∈ l := by
  simp [classRemove, h]

/-- The control after `updateValueStyles_`: only the class list changes,
adding or removing the lowest-value marker according to `fraction === 0`;
this is the same in both rendering modes. -/
theorem updateValueStyles_element (s : SliderState) :
    s.updateValueStyles.element =
      if jsEq (fractionOf s.element) (JsNum.fin 0) then
        { s.element with classList := classAdd s.element.classList CssClasses.IS_LOWEST_VALUE }
      else
        { s.element with classList := classRemove s.element.classList CssClasses.IS_LOWEST_VALUE } := by
  cases hIE : s.isIE <;> simp [SliderState.updateValueStyles, hIE]

/-- `updateValueStyles_` preserves the control's value. -/
theorem updateValueStyles_value (s : SliderState) :
    s.updateValueStyles.element.value = s.element.value := by
  rw [updateValueStyles_element]
  split <;> rfl

/-- `updateValueStyles_` preserves the control's min. -/
theorem updateValueStyles_min (s : SliderState) :
    s.updateValueStyles.element.min = s.element.min := by
  rw [updateValueStyles_element]
  split <;> rfl

/-- `updateValueStyles_` preserves the control's max. -/
theorem updateValueStyles_max (s : SliderState) :
    s.updateValueStyles.element.max = s.element.max := by
  rw [updateValueStyles_element]
  split <;> rfl

/-- `updateValueStyles_` preserves the control's disabled flag. -/
theorem updateValueStyles_disabled (s : SliderState) :
    s.updateValueStyles.element.disabled = s.element.disabled := by
  rw [updateValueStyles_element]
  split <;> rfl

/-- `updateValueStyles_` preserves the mode flag. -/
theorem updateValueStyles_isIE (s : SliderState) :
    s.updateValueStyles.isIE = s.isIE := by
  cases hIE : s.isIE <;> simp [SliderState.updateValueStyles, hIE]

/-- In non-IE mode, `updateValueStyles_` writes the fraction into the
lower background node's flex styles. -/
theorem updateValueStyles_lower (s : SliderState) (h : s.isIE = false) :
    s.updateValueStyles.backgroundLower =
      Option.map
        (fun d => { d with flex := some (fractionOf s.element),
                           webkitFlex := some (fractionOf s.element) })
        s.backgroundLower := by
  simp [SliderState.updateValueStyles, h]

/-- In non-IE mode, `updateValueStyles_` writes `1 - fraction` into the
upper background node's flex styles. -/
theorem updateValueStyles_upper (s : SliderState) (h : s.isIE = false) :
    s.updateValueStyles.backgroundUpper =
      Option.map
        (fun d => { d with
            flex := some (jsSub (JsNum.fin 1) (fractionOf s.element)),
            webkitFlex := some (jsSub (JsNum.fin 1) (fractionOf s.element)) })
        s.backgroundUpper := by
  simp [SliderState.updateValueStyles, h]

/-- In IE mode, `updateValueStyles_` leaves both background nodes alone. -/
theorem updateValueStyles_ie_frame (s : SliderState) (h : s.isIE = true) :
    s.updateValueStyles.backgroundLower = s.backgroundLower ∧
    s.updateValueStyles.backgroundUpper = s.backgroundUpper := by
  constructor <;> simp [SliderState.updateValueStyles, h]

/-- `updateValueStyles_` never changes a background node's class list. -/
theorem updateValueStyles_lower_classList (s : SliderState) :
    Option.map DivNode.classList s.updateValueStyles.backgroundLower =
      Option.map DivNode.classList s.backgroundLower := by
  cases hIE : s.isIE
  · rw [updateValueStyles_lower s hIE]
    cases s.backgroundLower <;> rfl
  · rw [(updateValueStyles_ie_frame s hIE).1]

/-- `updateValueStyles_` never changes a background node's class list. -/
theorem updateValueStyles_upper_classList (s : SliderState) :
    Option.map DivNode.classList s.updateValueStyles.backgroundUpper =
      Option.map DivNode.classList s.backgroundUpper := by
  cases hIE : s.isIE
  · rw [updateValueStyles_upper s hIE]
    cases s.backgroundUpper <;> rfl
  · rw [(updateValueStyles_ie_frame s hIE).2]

/-- With a non-degenerate range the fraction is the exact rational
`(value - min) / (max - min)`. -/
theorem fractionOf_eq_of_lt (el : Control) (h : el.min < el.max) :
    fractionOf el = JsNum.fin ((el.value - el.min) / (el.max - el.min)) := by
  have hne : el.max - el.min ≠ 0 := sub_ne_zero.mpr (ne_of_gt h)
  simp [fractionOf, jsDiv, hne]

/-! ### Claim theorems -/

/-- C1: for every valid control state (value, min, max) with min < max, in
the non-alternate (non-IE) rendering mode, `updateValueStyles_` computes
`fraction = (value - min) / (max - min)` and sets the lower fill region's
share (its `flex` / `webkitFlex` styles) to the fraction and the upper
fill region's share to `1 - fraction`. -/
theorem C1_fill_shares (s : SliderState) (d u : DivNode)
    (hIE : s.isIE = false) (hlt : s.element.min < s.element.max)
    (hl : s.backgroundLower = some d) (hu : s.backgroundUpper = some u) :
    fractionOf s.element =
      JsNum.fin ((s.element.value - s.element.min) / (s.element.max - s.element.min)) ∧
    s.updateValueStyles.backgroundLower = some
      { d with
          flex := some (JsNum.fin
            ((s.element.value - s.element.min) / (s.element.max - s.element.min))),
          webkitFlex := some (JsNum.fin
            ((s.element.value - s.element.min) / (s.element.max - s.element.min))) } ∧
    s.updateValueStyles.backgroundUpper = some
      { u with
          flex := some (JsNum.fin
            (1 - (s.element.value - s.element.min) / (s.element.max - s.element.min))),
          webkitFlex := some (JsNum.fin
            (1 - (s.element.value - s.element.min) / (s.element.max - s.element.min))) } := by
  have hfrac := fractionOf_eq_of_lt s.element hlt
  refine ⟨hfrac, ?_, ?_⟩
  · rw [updateValueStyles_lower s hIE, hl, hfrac]
    rfl
  · rw [updateValueStyles_upper s hIE, hu, hfrac]
    simp [jsSub]

/-- Witness for C1 at value 3, min 0, max 10: fraction 3/10 for the lower
region and 7/10 for the upper. -/
theorem C1_witness :
    (sampleState 3 0 10).isIE = false ∧
    (sampleState 3 0 10).element.min < (sampleState 3 0 10).element.max ∧
    (fractionOf (sampleState 3 0 10).element =
      JsNum.fin (((sampleState 3 0 10).element.value - (sampleState 3 0 10).element.min) /
        ((sampleState 3 0 10).element.max - (sampleState 3 0 10).element.min)) ∧
    (sampleState 3 0 10).updateValueStyles.backgroundLower = some
      { sampleNode with
          flex := some (JsNum.fin
            (((sampleState 3 0 10).element.value - (sampleState 3 0 10).element.min) /
              ((sampleState 3 0 10).element.max - (sampleState 3 0 10).element.min))),
          webkitFlex := some (JsNum.fin
            (((sampleState 3 0 10).element.value - (sampleState 3 0 10).element.min) /
              ((sampleState 3 0 10).element.max - (sampleState 3 0 10).element.min))) } ∧
    (sampleState 3 0 10).updateValueStyles.backgroundUpper = some
      { sampleNode with
          flex := some (JsNum.fin
            (1 - ((sampleState 3 0 10).element.value - (sampleState 3 0 10).element.min) /
              ((sampleState 3 0 10).element.max - (sampleState 3 0 10).element.min))),
          webkitFlex := some (JsNum.fin
            (1 - ((sampleState 3 0 10).element.value - (sampleState 3 0 10).element.min) /
              ((sampleState 3 0 10).element.max - (sampleState 3 0 10).element.min))) }) := by
  have h : (sampleState 3 0 10).element.min < (sampleState 3 0 10).element.max := by
    norm_num [sampleState, sampleControl]
  exact ⟨rfl, h, C1_fill_shares (sampleState 3 0 10) sampleNode sampleNode rfl h rfl rfl⟩

/-- C2 counterexample: the claim quantifies over every supplied value, but
`change` guards the assignment with the JS truthiness test `if (value)`,
which treats the number 0 as absent: `setValue(0)` on a control whose
value is 5 (min 0, max 10) leaves the value at 5 instead of assigning 0. -/
theorem C2_counterexample :
    ((sampleState 5 0 10).change (some 0)).element.value = 5 ∧ (5 : ℚ) ≠ 0 := by
  constructor
  · have h1 : (sampleState 5 0 10).change (some 0) = (sampleState 5 0 10).updateValueStyles := by
      simp [SliderState.change]
    rw [h1, updateValueStyles_value]
    rfl
  · norm_num

/-- C2 (amended): for every supplied non-zero value v, `setValue(v)`
assigns v to the control's value and then runs the recomputation routine
on the updated state; in particular the control's value afterwards is v. -/
theorem C2_setValue_nonzero (s : SliderState) (v : ℚ) (hv : v ≠ 0) :
    s.change (some v) =
      SliderState.updateValueStyles { s with element := { s.element with value := v } } ∧
    (s.change (some v)).element.value = v := by
  have h1 : s.change (some v) =
      SliderState.updateValueStyles { s with element := { s.element with value := v } } := by
    simp [SliderState.change, hv]
  refine ⟨h1, ?_⟩
  rw [h1, updateValueStyles_value]

/-- Witness for C2 at the spec's example: `setValue(7)` with min 0 and
max 10 sets the value to 7, and the resulting lower-region share is the
fraction 7/10. -/
theorem C2_witness :
    (7 : ℚ) ≠ 0 ∧
    ((sampleState 2 0 10).change (some 7) =
       SliderState.updateValueStyles
         { sampleState 2 0 10 with
             element := { (sampleState 2 0 10).element with value := 7 } } ∧
     ((sampleState 2 0 10).change (some 7)).element.value = 7) ∧
    ((sampleState 2 0 10).change (some 7)).backgroundLower =
      some { sampleNode with flex := some (JsNum.fin (7 / 10)),
                             webkitFlex := some (JsNum.fin (7 / 10)) } := by
  have h2 := C2_setValue_nonzero (sampleState 2 0 10) 7 (by norm_num)
  refine ⟨by norm_num, h2, ?_⟩
  have hlt :
      ({ sampleState 2 0 10 with
          element := { (sampleState 2 0 10).element with value := 7 } } : SliderState).element.min <
      ({ sampleState 2 0 10 with
          element := { (sampleState 2 0 10).element with value := 7 } } : SliderState).element.max := by
    norm_num [sampleState, sampleControl]
  have hf :
      fractionOf ({ sampleState 2 0 10 with
          element := { (sampleState 2 0 10).element with value := 7 } } : SliderState).element =
        JsNum.fin (7 / 10) := by
    rw [fractionOf_eq_of_lt _ hlt]
    norm_num [sampleState, sampleControl]
  rw [h2.1, updateValueStyles_lower _ rfl, hf]
  rfl

/-- C3: for every control state with min < max, after `updateValueStyles_`
the at-lowest-value marker class is present on the control when
value = min, and absent for any value > min. -/
theorem C3_lowest_marker (s : SliderState) (hlt : s.element.min < s.element.max) :
    (s.element.value = s.element.min →
      CssClasses.IS_LOWEST_VALUE ∈ s.updateValueStyles.element.classList) ∧
    (s.element.min < s.element.value →
      CssClasses.IS_LOWEST_VALUE ∉ s.updateValueStyles.element.classList) := by
  have hne : s.element.max - s.element.min ≠ 0 := sub_ne_zero.mpr (ne_of_gt hlt)
  have hfrac := fractionOf_eq_of_lt s.element hlt
  constructor
  · intro hv
    have h0 : (s.element.value - s.element.min) / (s.element.max - s.element.min) = 0 := by
      rw [hv]
      simp
    rw [updateValueStyles_element, hfrac, h0]
    simp [jsEq, classAdd_self_mem]
  · intro hv
    have h0 : (s.element.value - s.element.min) / (s.element.max - s.element.min) ≠ 0 := by
      have hnum : s.element.value - s.element.min ≠ 0 := sub_ne_zero.mpr (ne_of_gt hv)
      exact div_ne_zero hnum hne
    rw [updateValueStyles_element, hfrac]
    simp [jsEq, h0, classRemove_self_not_mem]

/-- Witness for C3 at value 0, min 0, max 10 (marker present exactly when
the value sits at the minimum). -/
theorem C3_witness :
    (sampleState 0 0 10).element.min < (sampleState 0 0 10).element.max ∧
    (((sampleState 0 0 10).element.value = (sampleState 0 0 10).element.min →
       CssClasses.IS_LOWEST_VALUE ∈ (sampleState 0 0 10).updateValueStyles.element.classList) ∧
     ((sampleState 0 0 10).element.min < (sampleState 0 0 10).element.value →
       CssClasses.IS_LOWEST_VALUE ∉ (sampleState 0 0 10).updateValueStyles.element.classList)) := by
  have h : (sampleState 0 0 10).element.min < (sampleState 0 0 10).element.max := by
    norm_num [sampleState, sampleControl]
  exact ⟨h, C3_lowest_marker (sampleState 0 0 10) h⟩

/-- C4: `setValue()` with no argument (`change none`) leaves the control's
value, min and max unchanged, and behaves exactly as one run of the
recomputation routine (so the fill styles and the marker class are still
recomputed and applied). -/
theorem C4_setValue_omitted (s : SliderState) :
    s.change none = s.updateValueStyles ∧
    (s.change none).element.value = s.element.value ∧
    (s.change none).element.min = s.element.min ∧
    (s.change none).element.max = s.element.max :=
  ⟨rfl, updateValueStyles_value s, updateValueStyles_min s, updateValueStyles_max s⟩

/-- C5: the value-changing (`input`) and value-committed (`change`) event
handlers have identical effect: for every widget state and any events,
both are exactly one run of the recomputation routine, with no other side
effect and no debouncing. -/
theorem C5_handlers_identical (s : SliderState) (e1 e2 : Event) :
    s.onInput e1 = s.onChange e2 ∧ s.onInput e1 = s.updateValueStyles :=
  ⟨rfl, rfl⟩

/-- C6: when the control reference is absent, `init` is a no-op — the
widget is returned unchanged, so no decoration nodes are created, no
listeners registered, no classes added and no signal raised. -/
theorem C6_init_absent_noop (w : Widget) (h : w.element = none) : w.init = w := by
  unfold Widget.init
  rw [h]

/-- Witness for C6 on a concrete widget with an absent control. -/
theorem C6_witness : emptyWidget.element = none ∧ emptyWidget.init = emptyWidget :=
  ⟨rfl, C6_init_absent_noop emptyWidget rfl⟩

/-- C7: after `disable` (`setEnabled(false)`) the control's disabled
attribute reads true, and after `enable` (`setEnabled(true)`) it reads
false; both are total functions on every widget state. -/
theorem C7_setEnabled (s : SliderState) :
    (s.disable).element.disabled = true ∧ (s.enable).element.disabled = false :=
  ⟨rfl, rfl⟩

/-- C8: the recomputation routine never modifies the control's value, min,
max or disabled attributes; membership of every class other than the
at-lowest-value marker is unchanged, the background nodes' class lists are
unchanged, and in IE (alternate) mode the background nodes are untouched
entirely — its only writes are the marker class and, in non-alternate
mode, the fill regions' flex styles. -/
theorem C8_update_frame (s : SliderState) (c : String)
    (hc : c ≠ CssClasses.IS_LOWEST_VALUE) :
    s.updateValueStyles.element.value = s.element.value ∧
    s.updateValueStyles.element.min = s.element.min ∧
    s.updateValueStyles.element.max = s.element.max ∧
    s.updateValueStyles.element.disabled = s.element.disabled ∧
    s.updateValueStyles.isIE = s.isIE ∧
    (c ∈ s.updateValueStyles.element.classList ↔ c ∈ s.element.classList) ∧
    Option.map DivNode.classList s.updateValueStyles.backgroundLower =
      Option.map DivNode.classList s.backgroundLower ∧
    Option.map DivNode.classList s.updateValueStyles.backgroundUpper =
      Option.map DivNode.classList s.backgroundUpper ∧
    (s.isIE = true →
      s.updateValueStyles.backgroundLower = s.backgroundLower ∧
      s.updateValueStyles.backgroundUpper = s.backgroundUpper) := by
  refine ⟨updateValueStyles_value s, updateValueStyles_min s, updateValueStyles_max s,
    updateValueStyles_disabled s, updateValueStyles_isIE s, ?_,
    updateValueStyles_lower_classList s, updateValueStyles_upper_classList s,
    fun h => updateValueStyles_ie_frame s h⟩
  rw [updateValueStyles_element]
  split
  · exact classAdd_mem_of_ne _ _ _ hc
  · exact classRemove_mem_of_ne _ _ _ hc

/-- Witness for C8 at value 4, min 1, max 9 and the unrelated class name
"mdl-other". -/
theorem C8_witness :
    "mdl-other" ≠ CssClasses.IS_LOWEST_VALUE ∧
    ((sampleState 4 1 9).updateValueStyles.element.value = (sampleState 4 1 9).element.value ∧
     (sampleState 4 1 9).updateValueStyles.element.min = (sampleState 4 1 9).element.min ∧
     (sampleState 4 1 9).updateValueStyles.element.max = (sampleState 4 1 9).element.max ∧
     (sampleState 4 1 9).updateValueStyles.element.disabled =
       (sampleState 4 1 9).element.disabled ∧
     (sampleState 4 1 9).updateValueStyles.isIE = (sampleState 4 1 9).isIE ∧
     ("mdl-other" ∈ (sampleState 4 1 9).updateValueStyles.element.classList ↔
       "mdl-other" ∈ (sampleState 4 1 9).element.classList) ∧
     Option.map DivNode.classList (sampleState 4 1 9).updateValueStyles.backgroundLower =
       Option.map DivNode.classList (sampleState 4 1 9).backgroundLower ∧
     Option.map DivNode.classList (sampleState 4 1 9).updateValueStyles.backgroundUpper =
       Option.map DivNode.classList (sampleState 4 1 9).backgroundUpper ∧
     ((sampleState 4 1 9).isIE = true →
       (sampleState 4 1 9).updateValueStyles.backgroundLower =
         (sampleState 4 1 9).backgroundLower ∧
       (sampleState 4 1 9).updateValueStyles.backgroundUpper =
         (sampleState 4 1 9).backgroundUpper)) := by
  have hc : "mdl-other" ≠ CssClasses.IS_LOWEST_VALUE := by decide
  exact ⟨hc, C8_update_frame (sampleState 4 1 9) "mdl-other" hc⟩

/-- C9: `disable` and `enable` (`setEnabled`) modify only the control's
disabled attribute — value, min, max, the control's class list, the mode
flag and the background decoration nodes are all unchanged. -/
theorem C9_setEnabled_frame (s : SliderState) :
    (s.disable).element.value = s.element.value ∧
    (s.disable).element.min = s.element.min ∧
    (s.disable).element.max = s.element.max ∧
    (s.disable).element.classList = s.element.classList ∧
    (s.disable).backgroundLower = s.backgroundLower ∧
    (s.disable).backgroundUpper = s.backgroundUpper ∧
    (s.disable).isIE = s.isIE ∧
    (s.enable).element.value = s.element.value ∧
    (s.enable).element.min = s.element.min ∧
    (s.enable).element.max = s.element.max ∧
    (s.enable).element.classList = s.element.classList ∧
    (s.enable).backgroundLower = s.backgroundLower ∧
    (s.enable).backgroundUpper = s.backgroundUpper ∧
    (s.enable).isIE = s.isIE :=
  ⟨rfl, rfl, rfl, rfl, rfl, rfl, rfl, rfl, rfl, rfl, rfl, rfl, rfl, rfl⟩

/-- C10: with min = max (outside the spec's precondition) the
recomputation routine is still total; when value = min the division is
`0 / 0`, which evaluates to NaN, the strict-equality test with 0 is false
(for every value: the division yields NaN or a signed infinity, never the
finite 0), and the at-lowest-value marker class is removed, never
added. -/
theorem C10_min_eq_max (s : SliderState) (h : s.element.min = s.element.max) :
    (s.element.value = s.element.min → fractionOf s.element = JsNum.nan) ∧
    jsEq (fractionOf s.element) (JsNum.fin 0) = false ∧
    CssClasses.IS_LOWEST_VALUE ∉ s.updateValueStyles.element.classList := by
  have hden : s.element.max - s.element.min = 0 := by
    rw [h, sub_self]
  have hnanOf : s.element.value = s.element.min → fractionOf s.element = JsNum.nan := by
    intro hv
    have hnum : s.element.value - s.element.min = 0 := by
      rw [hv, sub_self]
    unfold fractionOf
    rw [hden, hnum]
    simp [jsDiv]
  have hje : jsEq (fractionOf s.element) (JsNum.fin 0) = false := by
    by_cases h0 : s.element.value - s.element.min = 0
    · rw [hnanOf (sub_eq_zero.mp h0)]
      rfl
    · unfold fractionOf
      rw [hden]
      have e1 : jsDiv (JsNum.fin (s.element.value - s.element.min)) (JsNum.fin 0) =
          if 0 < s.element.value - s.element.min then JsNum.inf else JsNum.ninf := by
        simp [jsDiv, h0]
      rw [e1]
      by_cases h1 : 0 < s.element.value - s.element.min
      · rw [if_pos h1]
        rfl
      · rw [if_neg h1]
        rfl
  refine ⟨hnanOf, hje, ?_⟩
  rw [updateValueStyles_element, hje]
  simp [classRemove_self_not_mem]

/-- Witness for C10 at value = min = max = 5: the fraction is NaN, the
zero test fails, the marker is absent afterwards. -/
theorem C10_witness :
    (sampleState 5 5 5).element.min = (sampleState 5 5 5).element.max ∧
    (((sampleState 5 5 5).element.value = (sampleState 5 5 5).element.min →
        fractionOf (sampleState 5 5 5).element = JsNum.nan) ∧
     jsEq (fractionOf (sampleState 5 5 5).element) (JsNum.fin 0) = false ∧
     CssClasses.IS_LOWEST_VALUE ∉ (sampleState 5 5 5).updateValueStyles.element.classList) :=
  ⟨rfl, C10_min_eq_max (sampleState 5 5 5) rfl⟩
